import Mathlib

/-!
Verification development for the snapshotter commit-and-submit pipeline
(`snapshotter/utils/generic_worker.py`).

The Python source is shallowly embedded: pure fragments become Lean functions,
exception-raising code returns `Except PyExc`, and the effects of one
`_commit_payload` invocation are captured as an explicit result record over the
`SnapshotterStatus` counters.  External collaborators (the `ipfs_cid`,
`coincurve` and `eip712_structs` libraries, the anchor-chain RPC, the IPFS and
web3.storage backends, and the collector stream) enter as parameters or as
definitions modelled from the specification, each marked as such.
-/

namespace Snapshotter

/-! ## JSON values and `json.dumps(..., sort_keys=True, separators=(',', ':'))`

`_commit_payload` line 339 canonicalizes the pydantic snapshot through
`json.dumps(snapshot.dict(by_alias=True), sort_keys=True, separators=(',', ':'))`.
A Python dict is embedded as an association list of string keys (a real dict
never holds a duplicate key); `sort_keys` sorts the items of every object by
key, and Python compares strings lexicographically by code point, which is the
order of Lean's `LinearOrder String`. -/

/-- A JSON value, as produced by `snapshot.dict(by_alias=True)`. -/
inductive J where
  | str : String → J
  | num : Int → J
  | boolVal : Bool → J
  | null : J
  | arr : List J → J
  | obj : List (String × J) → J

/-- Ordering of object items used by `sort_keys=True`: compare keys only. -/
def keyLe (a b : String × J) : Prop := a.1 ≤ b.1

instance : DecidableRel keyLe := fun a b => inferInstanceAs (Decidable (a.1 ≤ b.1))

instance : IsTotal (String × J) keyLe := ⟨fun a b => le_total a.1 b.1⟩

instance : IsTrans (String × J) keyLe := ⟨fun _ _ _ h h2 => le_trans h h2⟩

/-- `sorted(d.items())` under `sort_keys=True`: sort the items of an object by key. -/
def sortByKey (l : List (String × J)) : List (String × J) := List.insertionSort keyLe l

/-- JSON string escaping for the double quote and the backslash (the characters
relevant to round-tripping; `json.dumps` escapes more, which does not affect
the canonicalization claims). -/
def encChar (c : Char) : String :=
  if c.toNat = 34 ∨ c.toNat = 92 then
    String.mk [Char.ofNat 92, c]
  else
    String.mk [c]

/-- A JSON string literal. -/
def encJStr (s : String) : String :=
  String.mk [Char.ofNat 34] ++ String.join (s.data.map encChar) ++ String.mk [Char.ofNat 34]

/-- `json.dumps` with `sort_keys=True` and compact separators `(',', ':')`:
objects serialize their items in sorted key order at every level. -/
def encodeJ : J → String
  | J.str s => encJStr s
  | J.num n => toString n
  | J.boolVal b => if b then "true" else "false"
  | J.null => "null"
  | J.arr xs =>
      "[" ++ String.intercalate "," (xs.attach.map (fun x => encodeJ x.1)) ++ "]"
  | J.obj kvs =>
      "\x7b" ++
        String.intercalate ","
          ((sortByKey kvs).attach.map (fun p => encJStr p.1.1 ++ ":" ++ encodeJ p.1.2)) ++
      "\x7d"
termination_by j => sizeOf j
decreasing_by
  · have hmem := x.2
    have h1 : sizeOf x.1 < sizeOf xs := List.sizeOf_lt_of_mem hmem
    simp only [J.arr.sizeOf_spec]
    omega
  · have hmem : p.1 ∈ kvs := by
      have hperm : List.Perm (sortByKey kvs) kvs := List.perm_insertionSort keyLe kvs
      exact hperm.mem_iff.mp p.2
    have h1 : sizeOf p.1 < sizeOf kvs := List.sizeOf_lt_of_mem hmem
    have h2 : sizeOf p.1.2 < sizeOf p.1 := by
      cases p.1 with
      | mk k v => simp only [Prod.mk.sizeOf_spec]; omega
    simp only [J.obj.sizeOf_spec]
    omega

/-- Line 339: the canonical serialization of a snapshot dict. -/
def jsonDumps (d : List (String × J)) : String := encodeJ (J.obj d)

/-- Line 340: `snapshot_json.encode('utf-8')`, abstracted to the code points of
the serialized string (equal strings give equal byte sequences). -/
def snapshotBytes (d : List (String × J)) : List Nat :=
  (jsonDumps d).data.map Char.toNat

/-! ## Python exceptions

The exception classes that appear in `generic_worker.py`.  All of them are
ordinary `Exception` subclasses for the purposes of the handlers in this file
(`asyncio.CancelledError` is raised and caught only inside
`_send_msg_with_closure`, which names it explicitly). -/

/-- The Python exception values relevant to the worker. -/
inductive PyExc where
  | IPFSAsyncClientError (msg : String)
  | HTTPStatusError (msg : String)
  | ConnectionResetError
  | GRPCError (msg : String)
  | TimeoutError
  | CancelledError
  | ValueError (msg : String)
  | UnboundLocalError (name : String)
  | RPCError (msg : String)
  | OtherError (msg : String)
deriving DecidableEq

/-- `isinstance(e, IPFSAsyncClientError)`. -/
def isIPFSAsyncClientError : PyExc → Bool
  | PyExc.IPFSAsyncClientError _ => true
  | _ => false

/-- `isinstance(e, httpx.HTTPStatusError)`. -/
def isHTTPStatusError : PyExc → Bool
  | PyExc.HTTPStatusError _ => true
  | _ => false

/-! ## The tenacity retry decorator

Both upload paths are wrapped in
`@retry(wait=wait_random_exponential(multiplier=1, max=10), stop=stop_after_attempt(5), retry=tenacity.retry_if_not_exception_type(C), after=...)`
(lines 174-179 and 206-211), differing only in the excluded exception class
`C`.  The decorated coroutine is re-invoked until it succeeds, until the
exception fails the retry predicate (then the exception propagates at once), or
until `stop_after_attempt` is reached (then the final failure propagates).  The
`wait` and `after` arguments only sleep and log; they do not change which
outcome escapes, so the embedding records them as policy data. -/

/-- A tenacity retry policy: the `wait_random_exponential(multiplier, max)`
backoff shape, the `stop_after_attempt` bound, and the retry predicate. -/
structure RetryPolicy where
  waitMultiplier : Nat
  waitMax : Nat
  maxAttempts : Nat
  retryOn : PyExc → Bool

/-- One tenacity loop: `idx` is the 0-based attempt index, `rem` the number of
further attempts `stop_after_attempt` still allows.  Returns the escaping
outcome and the total number of attempts made. -/
def retryRunAux (retryOn : PyExc → Bool) (f : Nat → Except PyExc α) :
    Nat → Nat → Except PyExc α × Nat
  | idx, 0 => (f idx, idx + 1)
  | idx, rem + 1 =>
    match f idx with
    | Except.ok a => (Except.ok a, idx + 1)
    | Except.error e =>
      if retryOn e then retryRunAux retryOn f (idx + 1) rem
      else (Except.error e, idx + 1)

/-- Run a call under a tenacity retry policy; `f i` is the outcome the wrapped
coroutine would produce on its `i`-th invocation. -/
def retryRun (pol : RetryPolicy) (f : Nat → Except PyExc α) : Except PyExc α × Nat :=
  retryRunAux pol.retryOn f 0 (pol.maxAttempts - 1)

/-- Lines 206-211: the policy on `_upload_to_ipfs`; `IPFSAsyncClientError` is
excluded from retry. -/
def ipfsUploadRetryPolicy : RetryPolicy :=
  ⟨1, 10, 5, fun e => ! isIPFSAsyncClientError e⟩

/-- Lines 174-179: the policy on `_upload_web3_storage`; `httpx.HTTPStatusError`
is excluded from retry. -/
def web3StorageRetryPolicy : RetryPolicy :=
  ⟨1, 10, 5, fun e => ! isHTTPStatusError e⟩

/-! ## Bytes, big-endian integers and hex strings

`generate_signature` (lines 454-458) converts between byte strings and
integers with `eth_utils.big_endian_to_int` (`int.from_bytes(b, 'big')`) and
`int.to_bytes(n, 'big')`.  A byte string is embedded as a `List Nat` whose
entries are below 256. -/

/-- `int.from_bytes(b, 'big')`. -/
def big_endian_to_int : List Nat → Nat
  | [] => 0
  | b :: rest => b * 256 ^ rest.length + big_endian_to_int rest

/-- `n.to_bytes(len, 'big')` (most significant byte first; `len` bytes). -/
def to_bytes_be : Nat → Nat → List Nat
  | 0, _ => []
  | len + 1, n => n / 256 ^ len % 256 :: to_bytes_be len n

/-! ### Hex strings

`coincurve.PrivateKey.from_hex` feeds the given string through
`bytes.fromhex` (after padding an odd length); any character that is not a
hexadecimal digit — in particular the `x` of a `0x` prefix — raises
`ValueError`. -/

/-- Is `c` an ASCII hexadecimal digit? -/
def isHexDigitChar (c : Char) : Bool :=
  (48 ≤ c.toNat && c.toNat ≤ 57) ||
  (97 ≤ c.toNat && c.toNat ≤ 102) ||
  (65 ≤ c.toNat && c.toNat ≤ 70)

/-- Value of a hexadecimal digit. -/
def hexVal (c : Char) : Nat :=
  if c.toNat ≤ 57 then c.toNat - 48
  else if 97 ≤ c.toNat then c.toNat - 87
  else c.toNat - 55

/-- Consecutive pairs of hex digits to bytes. -/
def hexPairsToBytes : List Char → List Nat
  | c₁ :: c₂ :: rest => (hexVal c₁ * 16 + hexVal c₂) :: hexPairsToBytes rest
  | _ => []

/-- `coincurve.PrivateKey.from_hex` (external library): zero-pads an
odd-length string, converts with `bytes.fromhex`, and requires a 32-byte
secret; returns `none` where the Python call raises (for example on the
non-hex characters of a `0x` prefix). -/
def PrivateKey_from_hex (s : String) : Option (List Nat) :=
  let padded := if s.length % 2 = 1 then "0" ++ s else s
  if padded.data.all isHexDigitChar then
    let secret := hexPairsToBytes padded.data
    if secret.length = 32 then some secret else none
  else none

/-- Lines 428-429 and 450-451: strip a `0x` prefix from a key string
(`key[2:]` when `key.startswith('0x')`), written over the character list. -/
def strip0x (s : String) : String :=
  match s.data with
  | c₁ :: c₂ :: rest => if c₁ = '0' ∧ c₂ = 'x' then String.mk rest else s
  | _ => s

/-! ## SignatureService (`_init_rpc_helper` lines 421-430, `generate_signature` lines 432-460) -/

/-- The typed message fields of `EIPRequest` (lines 56-61). -/
structure EIPRequest where
  slotId : Nat
  deadline : Nat
  snapshotCid : String
  epochId : Nat
  projectId : String
deriving DecidableEq

/-- The EIP-712 signing domain built by `make_domain` (lines 423-426). -/
structure Eip712Domain where
  name : String
  version : String
  chainId : Nat
  verifyingContract : String
deriving DecidableEq

/-- The configuration fields of `settings` that `generate_signature` and
`_init_rpc_helper` read. -/
structure SigSettings where
  signer_private_key : String
  slot_id : Nat
  deadline_buffer : Nat
deriving DecidableEq

/-- A 32-byte big-endian block of a `uint` field. -/
def encNat256 (n : Nat) : List Nat := to_bytes_be 32 (n % 2 ^ 256)

/-- The code points of a string field. -/
def encStrBytes (s : String) : List Nat := s.data.map Char.toNat

/-- Modelled from the spec: `request.signable_bytes(self._domain_separator)` of
the external `eip712_structs` library — the EIP-712 typed-data bytes binding
the request fields to the domain.  Modelled as a deterministic pure encoding of
the domain and request fields; the claims depend only on it being a function of
those fields. -/
def signable_bytes (d : Eip712Domain) (r : EIPRequest) : List Nat :=
  encStrBytes d.name ++ encStrBytes d.version ++ encNat256 d.chainId ++
  encStrBytes d.verifyingContract ++ encNat256 r.slotId ++ encNat256 r.deadline ++
  encStrBytes r.snapshotCid ++ encNat256 r.epochId ++ encStrBytes r.projectId

/-- Modelled from the spec: `PrivateKey.sign_recoverable(signable_bytes, hasher=keccak_256)`
of the external `coincurve` library — a deterministic recoverable secp256k1
signature, 65 bytes laid out as 32-byte `r`, 32-byte `s` and a raw recovery id
in `\x7b0, 1\x7d`.  Modelled as a deterministic 65-byte function of key and
message with those shape properties. -/
def sign_recoverable (key : List Nat) (msg : List Nat) : List Nat :=
  let seed := big_endian_to_int key + 2 * big_endian_to_int msg + 1
  (List.range 64).map (fun i => (seed / (i + 1) + i * 131) % 256) ++ [seed % 2]

/-- Lines 454-458: normalize the recovery byte and serialize the signature as
`r.to_bytes(32, 'big') + s.to_bytes(32, 'big') + v.to_bytes(1, 'big')` with
`v = signature[64] + 27`, `r = big_endian_to_int(signature[0:32])` and
`s = big_endian_to_int(signature[32:64])`. -/
def serializeSignature (signature : List Nat) : List Nat :=
  let v := signature.getD 64 0 + 27
  let r := big_endian_to_int (signature.take 32)
  let s := big_endian_to_int ((signature.drop 32).take 32)
  to_bytes_be 32 r ++ to_bytes_be 32 s ++ to_bytes_be 1 v

/-- Lines 427-430: the identity-key initialization.  The stripped form is
stored in `self._private_key`, but `PrivateKey.from_hex` is called on the
unstripped `settings.signer_private_key`. -/
def initIdentityKey (signer_private_key : String) : Option (List Nat) :=
  let private_key_stripped := strip0x signer_private_key
  let _ := private_key_stripped
  PrivateKey_from_hex signer_private_key

/-- The anchor-chain block returned by `eth_get_block` (fields of lines 433-435,
with the hex block number already decoded to a `Nat`). -/
structure AnchorBlock where
  number : Nat
  hash : String
deriving DecidableEq

/-- Lines 432-460: `generate_signature`.  The anchor RPC outcome is the
`blockFetch` parameter (an RPC failure propagates unretried); `identity_key`
is the already-initialized `self._identity_private_key`.  The Python
`if not slot_id` / `if not private_key` tests are falsy tests, so `0` and the
empty string fall back to the defaults. -/
def generate_signature (setts : SigSettings) (domain : Eip712Domain)
    (identity_key : List Nat) (blockFetch : Except PyExc AnchorBlock)
    (snapshot_cid : String) (epoch_id : Nat) (project_id : String)
    (slot_id : Option Nat) (private_key : Option String) :
    Except PyExc (EIPRequest × List Nat × String) :=
  match blockFetch with
  | Except.error e => Except.error e
  | Except.ok current_block =>
    let deadline := current_block.number + setts.deadline_buffer
    let request_slot_id :=
      match slot_id with
      | none => setts.slot_id
      | some s => if s = 0 then setts.slot_id else s
    let request : EIPRequest :=
      ⟨request_slot_id, deadline, snapshot_cid, epoch_id, project_id⟩
    let sb := signable_bytes domain request
    match private_key with
    | none =>
      Except.ok (request, serializeSignature (sign_recoverable identity_key sb),
        current_block.hash)
    | some pk =>
      if pk = "" then
        Except.ok (request, serializeSignature (sign_recoverable identity_key sb),
          current_block.hash)
      else
        match PrivateKey_from_hex (strip0x pk) with
        | none => Except.error (PyExc.ValueError "non-hexadecimal number found in fromhex")
        | some k =>
          Except.ok (request, serializeSignature (sign_recoverable k sb),
            current_block.hash)

/-! ## Content ids -/

/-- Modelled from the spec: `cid_sha256_hash` of the external `ipfs_cid`
library — the contentId "computed deterministically and locally as a content
hash of the bytes (e.g., SHA-256-based multihash)"; no network call.  Modelled
as a deterministic pure digest rendered in the cid's textual form; the claims
depend only on determinism. -/
def cid_sha256_hash (b : List Nat) : String :=
  "bafkrei" ++ toString (b.foldl (fun h c => (h * 1099511628211 + c + 3) % 2 ^ 256) 0)

/-- The no-backend branch of the upload step (line 345): a purely local hash.
The second component counts network calls made, which is zero. -/
def uploadLocalFallback (b : List Nat) : String × Nat := (cid_sha256_hash b, 0)

/-! ## SubmissionChannel (`_send_msg_with_closure` lines 279-307,
`_send_submission_to_collector` lines 245-277) -/

/-- How the `stream.send_message`/`stream.recv_message` pair ends. -/
inductive SendOutcome where
  | delivered
  | connectionReset
  | grpcError (msg : String)
  | cancelled
  | timeoutErr
  | otherError (msg : String)
deriving DecidableEq

/-- How `asyncio.wait_for(stream.cancel(), timeout=10)` ends. -/
inductive CancelOutcome where
  | ok
  | timedOut
  | alreadyCancelled
  | failed (msg : String)
deriving DecidableEq

/-- Lines 294-301: the cancel attempt.  Every arm — `asyncio.TimeoutError`,
`asyncio.CancelledError` and any other `Exception` — is logged and swallowed,
so nothing escapes the block. -/
def cancelBlock : CancelOutcome → Option PyExc
  | CancelOutcome.ok => none
  | CancelOutcome.timedOut => none
  | CancelOutcome.alreadyCancelled => none
  | CancelOutcome.failed _ => none

/-- What one `_send_msg_with_closure` call did. -/
structure ClosureResult where
  raised : Option PyExc
  cancelAttempted : Bool
  cancelTimeoutSeconds : Nat
  deliveredOk : Bool
deriving DecidableEq

/-- Lines 279-307: `_send_msg_with_closure`.  A `ConnectionResetError` or
`grpclib` `GRPCError` triggers the bounded cancel attempt (timeout 10s) whose
own outcome is swallowed by `cancelBlock`; `asyncio.CancelledError` and every
other `Exception` are logged and swallowed; nothing propagates. -/
def _send_msg_with_closure (send : SendOutcome) (cancel : CancelOutcome) : ClosureResult :=
  match send with
  | SendOutcome.delivered => ⟨none, false, 0, true⟩
  | SendOutcome.connectionReset => ⟨cancelBlock cancel, true, 10, false⟩
  | SendOutcome.grpcError _ => ⟨cancelBlock cancel, true, 10, false⟩
  | SendOutcome.cancelled => ⟨none, false, 0, false⟩
  | SendOutcome.timeoutErr => ⟨none, false, 0, false⟩
  | SendOutcome.otherError _ => ⟨none, false, 0, false⟩

/-- Lines 245-277: `_send_submission_to_collector`.  `generate_signature` is
awaited outside any handler, so its failure propagates; the
`_send_msg_with_closure` call is wrapped in handlers for
`asyncio.TimeoutError` and `Exception` that log and swallow, so no delivery
outcome propagates. -/
def _send_submission_to_collector (setts : SigSettings) (domain : Eip712Domain)
    (identity_key : List Nat) (blockFetch : Except PyExc AnchorBlock)
    (snapshot_cid : String) (epoch_id : Nat) (project_id : String)
    (slot_id : Option Nat) (private_key : Option String)
    (send : SendOutcome) (cancel : CancelOutcome) : Except PyExc Unit :=
  match generate_signature setts domain identity_key blockFetch snapshot_cid
      epoch_id project_id slot_id private_key with
  | Except.error e => Except.error e
  | Except.ok _ =>
    match (_send_msg_with_closure send cancel).raised with
    | some PyExc.TimeoutError => Except.ok ()
    | some _ => Except.ok ()
    | none => Except.ok ()

/-! ## FailureReporter / CommitPipeline (`_commit_payload` lines 310-402) -/

/-- The `SnapshotterStatus` counters mutated by `_commit_payload`. -/
structure SnapshotterStatus where
  totalSuccessfulSubmissions : Nat
  totalMissedSubmissions : Nat
  consecutiveMissedSubmissions : Nat
deriving DecidableEq

/-- Modelled from the spec: the structured issue built from
`SnapshotterIssue` in both failure branches (the models module is outside
`src/`): issue kind `MISSED_SNAPSHOT` with project, epoch and instance
identity; `timeOfReporting` is wall clock and not modelled. -/
structure IssueReport where
  instanceID : String
  issueType : String
  projectID : String
  epochIdStr : String
deriving DecidableEq

/-- The inputs of one `_commit_payload` invocation, with every external
collaborator outcome injected. -/
structure CommitInputs where
  ipfsConfigured : Bool
  ipfsAdd : Nat → Except PyExc String
  payload : List (String × J)
  project_id : String
  epochId : Nat
  instance_id : String
  setts : SigSettings
  domain : Eip712Domain
  identity_key : List Nat
  blockFetch : Except PyExc AnchorBlock
  send : SendOutcome
  cancel : CancelOutcome
  storage_flag : Bool
  web3_api_token : String
  web3Post : List Nat → Nat → Except PyExc Unit

/-- Lines 341-345: the primary upload step under its retry policy, or the
local hashing fallback when no IPFS url is configured. -/
def uploadStep (inp : CommitInputs) : Except PyExc String :=
  if inp.ipfsConfigured then (retryRun ipfsUploadRetryPolicy inp.ipfsAdd).1
  else Except.ok (cid_sha256_hash (snapshotBytes inp.payload))

/-- Lines 174-204: `_upload_web3_storage snapshot` under its retry policy; if
no api token is configured the wrapped call returns at once without a network
POST, else the snapshot bytes are POSTed.  Returns the escaping outcome and
the attempt count. -/
def _upload_web3_storage (snapshot : List Nat) (api_token : String)
    (post : List Nat → Nat → Except PyExc Unit) : Except PyExc Unit × Nat :=
  retryRun web3StorageRetryPolicy
    (fun i => if api_token = "" then Except.ok () else post snapshot i)

instance {ε α : Type _} [DecidableEq ε] [DecidableEq α] : DecidableEq (Except ε α) :=
  fun a b =>
    match a, b with
    | Except.ok x, Except.ok y =>
      if h : x = y then Decidable.isTrue (by rw [h])
      else Decidable.isFalse (fun hc => h (Except.ok.inj hc))
    | Except.ok _, Except.error _ => Decidable.isFalse (fun hc => Except.noConfusion hc)
    | Except.error _, Except.ok _ => Decidable.isFalse (fun hc => Except.noConfusion hc)
    | Except.error x, Except.error y =>
      if h : x = y then Decidable.isTrue (by rw [h])
      else Decidable.isFalse (fun hc => h (Except.error.inj hc))

/-- The observable effects of one `_commit_payload` invocation. -/
structure CommitResult where
  ret : Except PyExc String
  status : SnapshotterStatus
  issuesSent : List IssueReport
  submissionAttempted : Bool
  archivalTask : Option (Except PyExc Unit × Nat)
deriving DecidableEq

/-- The `SnapshotterIssue` both failure branches construct. -/
def missedIssue (inp : CommitInputs) : IssueReport :=
  ⟨inp.instance_id, "MISSED_SNAPSHOT", inp.project_id, toString inp.epochId⟩

/-- Lines 310-402: `_commit_payload`.  On upload failure the miss counters are
bumped, one issue is sent, submission is never attempted — and the final
`return snapshot_cid` raises `UnboundLocalError` because `snapshot_cid` was
never assigned.  On upload success the submission step runs; if it raises, the
miss counters are bumped and one issue is sent, else the success counters are
updated; either way the cid is returned.  If `storage_flag` is set the
archival upload is spawned as a detached task in all branches. -/
def _commit_payload (inp : CommitInputs) (status : SnapshotterStatus) : CommitResult :=
  let archival :=
    if inp.storage_flag then
      some (_upload_web3_storage (snapshotBytes inp.payload) inp.web3_api_token inp.web3Post)
    else none
  match uploadStep inp with
  | Except.error _ =>
    { ret := Except.error (PyExc.UnboundLocalError "snapshot_cid")
      status := { status with
        totalMissedSubmissions := status.totalMissedSubmissions + 1
        consecutiveMissedSubmissions := status.consecutiveMissedSubmissions + 1 }
      issuesSent := [missedIssue inp]
      submissionAttempted := false
      archivalTask := archival }
  | Except.ok snapshot_cid =>
    match _send_submission_to_collector inp.setts inp.domain inp.identity_key
        inp.blockFetch snapshot_cid inp.epochId inp.project_id none none
        inp.send inp.cancel with
    | Except.error _ =>
      { ret := Except.ok snapshot_cid
        status := { status with
          totalMissedSubmissions := status.totalMissedSubmissions + 1
          consecutiveMissedSubmissions := status.consecutiveMissedSubmissions + 1 }
        issuesSent := [missedIssue inp]
        submissionAttempted := true
        archivalTask := archival }
    | Except.ok _ =>
      { ret := Except.ok snapshot_cid
        status := { status with
          totalSuccessfulSubmissions := status.totalSuccessfulSubmissions + 1
          consecutiveMissedSubmissions := 0 }
        issuesSent := []
        submissionAttempted := true
        archivalTask := archival }

/-- A sequence of commits run one after another against the shared status. -/
def commitRun (inps : List CommitInputs) (st : SnapshotterStatus) : SnapshotterStatus :=
  inps.foldl (fun s i => (_commit_payload i s).status) st

/-- The non-archival part of a commit's observable effects, as a function of
the inputs: the return/raise outcome, the updated counters, the issues sent
and whether submission was attempted. -/
def commitCore (inp : CommitInputs) (st : SnapshotterStatus) :
    Except PyExc String × SnapshotterStatus × List IssueReport × Bool :=
  match uploadStep inp with
  | Except.error _ =>
    (Except.error (PyExc.UnboundLocalError "snapshot_cid"),
      { st with
        totalMissedSubmissions := st.totalMissedSubmissions + 1
        consecutiveMissedSubmissions := st.consecutiveMissedSubmissions + 1 },
      [missedIssue inp], false)
  | Except.ok snapshot_cid =>
    match _send_submission_to_collector inp.setts inp.domain inp.identity_key
        inp.blockFetch snapshot_cid inp.epochId inp.project_id none none
        inp.send inp.cancel with
    | Except.error _ =>
      (Except.ok snapshot_cid,
        { st with
          totalMissedSubmissions := st.totalMissedSubmissions + 1
          consecutiveMissedSubmissions := st.consecutiveMissedSubmissions + 1 },
        [missedIssue inp], true)
    | Except.ok _ =>
      (Except.ok snapshot_cid,
        { st with
          totalSuccessfulSubmissions := st.totalSuccessfulSubmissions + 1
          consecutiveMissedSubmissions := 0 },
        [], true)

/-! ## Helper lemmas -/

/-! ### Canonicalization lemmas -/

theorem sorted_map_fst_of_sorted_keyLe (l : List (String × J)) (h : List.Sorted keyLe l) :
    List.Sorted (· ≤ ·) (l.map Prod.fst) :=
  List.Pairwise.map Prod.fst (fun _ _ hab => hab) h

theorem eq_of_perm_of_map_fst_eq :
    ∀ l₁ l₂ : List (String × J), l₁.Perm l₂ → l₁.map Prod.fst = l₂.map Prod.fst →
      (l₁.map Prod.fst).Nodup → l₁ = l₂ := by
  intro l₁
  induction l₁ with
  | nil =>
    intro l₂ hp _ _
    exact hp.nil_eq
  | cons a t ih =>
    intro l₂ hp hm hnd
    cases l₂ with
    | nil => exact absurd hp.symm.nil_eq (by simp)
    | cons b t₂ =>
      simp only [List.map_cons, List.cons.injEq] at hm
      obtain ⟨hab, htm⟩ := hm
      simp only [List.map_cons, List.nodup_cons] at hnd
      obtain ⟨hnotin, hndt⟩ := hnd
      have hamem : a ∈ b :: t₂ := hp.mem_iff.mp (List.mem_cons_self a t)
      have hab' : a = b := by
        rcases List.mem_cons.mp hamem with h | h
        · exact h
        · exfalso
          have : a.1 ∈ t₂.map Prod.fst := List.mem_map_of_mem Prod.fst h
          rw [← htm] at this
          exact hnotin this
      subst hab'
      have htp : t.Perm t₂ := hp.cons_inv
      rw [ih t₂ htp htm hndt]

theorem sortByKey_eq_of_perm (l₁ l₂ : List (String × J)) (hp : l₁.Perm l₂)
    (hnd : (l₁.map Prod.fst).Nodup) : sortByKey l₁ = sortByKey l₂ := by
  have hperm : (sortByKey l₁).Perm (sortByKey l₂) :=
    ((List.perm_insertionSort keyLe l₁).trans hp).trans
      (List.perm_insertionSort keyLe l₂).symm
  have hs₁ : List.Sorted keyLe (sortByKey l₁) := List.sorted_insertionSort keyLe l₁
  have hs₂ : List.Sorted keyLe (sortByKey l₂) := List.sorted_insertionSort keyLe l₂
  have hk : (sortByKey l₁).map Prod.fst = (sortByKey l₂).map Prod.fst :=
    List.eq_of_perm_of_sorted (hperm.map Prod.fst)
      (sorted_map_fst_of_sorted_keyLe _ hs₁) (sorted_map_fst_of_sorted_keyLe _ hs₂)
  have hnd₁ : ((sortByKey l₁).map Prod.fst).Nodup :=
    (((List.perm_insertionSort keyLe l₁).map Prod.fst).nodup_iff).mpr hnd
  exact eq_of_perm_of_map_fst_eq _ _ hperm hk hnd₁

theorem jsonDumps_eq_of_perm (l₁ l₂ : List (String × J)) (hp : l₁.Perm l₂)
    (hnd : (l₁.map Prod.fst).Nodup) : jsonDumps l₁ = jsonDumps l₂ := by
  unfold jsonDumps
  rw [encodeJ, encodeJ, sortByKey_eq_of_perm l₁ l₂ hp hnd]

theorem snapshotBytes_eq_of_perm (l₁ l₂ : List (String × J)) (hp : l₁.Perm l₂)
    (hnd : (l₁.map Prod.fst).Nodup) : snapshotBytes l₁ = snapshotBytes l₂ := by
  unfold snapshotBytes
  rw [jsonDumps_eq_of_perm l₁ l₂ hp hnd]

theorem retryRunAux_const_error (retryOn : PyExc → Bool) (f : Nat → Except PyExc α)
    (e : PyExc) (hf : ∀ i, f i = Except.error e) (hr : retryOn e = true) :
    ∀ rem idx, retryRunAux retryOn f idx rem = (Except.error e, idx + rem + 1) := by
  intro rem
  induction rem with
  | zero => intro idx; simp [retryRunAux, hf idx]
  | succ rem ih =>
    intro idx
    simp only [retryRunAux, hf idx, hr, if_true]
    rw [ih (idx + 1)]
    simp only [Prod.mk.injEq]
    exact ⟨trivial, by omega⟩

/-- A backend that always fails with a retryable error exhausts exactly
`maxAttempts` attempts and then reports the error. -/
theorem retryRun_const_error (pol : RetryPolicy) (f : Nat → Except PyExc α) (e : PyExc)
    (hf : ∀ i, f i = Except.error e) (hr : pol.retryOn e = true) :
    retryRun pol f = (Except.error e, pol.maxAttempts - 1 + 1) := by
  unfold retryRun
  rw [retryRunAux_const_error pol.retryOn f e hf hr]
  simp only [Prod.mk.injEq]
  exact ⟨trivial, by omega⟩

/-- A first attempt that fails with an excluded error propagates immediately:
one attempt, no retry. -/
theorem retryRun_excluded_error (pol : RetryPolicy) (f : Nat → Except PyExc α) (e : PyExc)
    (hf : f 0 = Except.error e) (hr : pol.retryOn e = false) :
    retryRun pol f = (Except.error e, 1) := by
  unfold retryRun
  cases hk : pol.maxAttempts - 1 with
  | zero => simp [retryRunAux, hf]
  | succ n => simp [retryRunAux, hf, hr]

theorem big_endian_to_int_lt (b : List Nat) (h : ∀ x ∈ b, x < 256) :
    big_endian_to_int b < 256 ^ b.length := by
  induction b with
  | nil => simp [big_endian_to_int]
  | cons x xs ih =>
    have hx : x < 256 := h x (List.mem_cons_self x xs)
    have hxs : big_endian_to_int xs < 256 ^ xs.length :=
      ih (fun y hy => h y (List.mem_cons_of_mem x hy))
    simp only [big_endian_to_int, List.length_cons]
    have h1 : x * 256 ^ xs.length ≤ 255 * 256 ^ xs.length :=
      Nat.mul_le_mul_right _ (by omega)
    have h2 : (255 : Nat) * 256 ^ xs.length + 256 ^ xs.length = 256 ^ (xs.length + 1) := by
      rw [pow_succ]; ring
    omega

theorem to_bytes_be_add_high (len : Nat) :
    ∀ x r, to_bytes_be len (x * 256 ^ len + r) = to_bytes_be len r := by
  induction len with
  | zero => intro x r; simp [to_bytes_be]
  | succ len ih =>
    intro x r
    simp only [to_bytes_be, List.cons.injEq]
    refine ⟨?_, ?_⟩
    · have h1 : x * 256 ^ (len + 1) + r = r + x * 256 * 256 ^ len := by
        rw [pow_succ]; ring
      rw [h1, Nat.add_mul_div_right _ _ (Nat.pos_pow_of_pos len (by omega))]
      omega
    · have hpow : x * 256 ^ (len + 1) + r = (x * 256) * 256 ^ len + r := by
        rw [pow_succ]; ring
      rw [hpow, ih]

/-- Round trip: re-serializing the big-endian integer of a byte string of
length `len` reproduces the byte string. -/
theorem to_bytes_be_big_endian_to_int (b : List Nat) (h : ∀ x ∈ b, x < 256) :
    to_bytes_be b.length (big_endian_to_int b) = b := by
  induction b with
  | nil => simp [to_bytes_be, big_endian_to_int]
  | cons x xs ih =>
    have hx : x < 256 := h x (List.mem_cons_self x xs)
    have hxs : big_endian_to_int xs < 256 ^ xs.length :=
      big_endian_to_int_lt xs (fun y hy => h y (List.mem_cons_of_mem x hy))
    simp only [List.length_cons, to_bytes_be, big_endian_to_int, List.cons.injEq]
    refine ⟨?_, ?_⟩
    · rw [Nat.add_comm, Nat.add_mul_div_right _ _ (Nat.pos_pow_of_pos xs.length (by omega))]
      rw [Nat.div_eq_of_lt hxs]
      simp [Nat.mod_eq_of_lt hx]
    · rw [to_bytes_be_add_high]
      exact ih (fun y hy => h y (List.mem_cons_of_mem x hy))

theorem sign_recoverable_length (key msg : List Nat) :
    (sign_recoverable key msg).length = 65 := by
  simp [sign_recoverable]

theorem sign_recoverable_bytes_lt (key msg : List Nat) :
    ∀ x ∈ sign_recoverable key msg, x < 256 := by
  intro x hx
  simp only [sign_recoverable, List.mem_append, List.mem_map, List.mem_range,
    List.mem_singleton] at hx
  rcases hx with ⟨i, _, rfl⟩ | rfl
  · exact Nat.mod_lt _ (by omega)
  · exact lt_of_lt_of_le (Nat.mod_lt _ (by omega)) (by omega)

theorem sign_recoverable_recid (key msg : List Nat) :
    (sign_recoverable key msg).getD 64 0 = 0 ∨ (sign_recoverable key msg).getD 64 0 = 1 := by
  have h : (sign_recoverable key msg).getD 64 0 =
      (big_endian_to_int key + 2 * big_endian_to_int msg + 1) % 2 := by
    simp [sign_recoverable, List.getD_append_right, List.getD]
  rw [h]
  omega


theorem to_bytes_be_length (len : Nat) : ∀ n, (to_bytes_be len n).length = len := by
  induction len with
  | zero => intro n; rfl
  | succ len ih => intro n; simp [to_bytes_be, ih]

theorem to_bytes_be_one (n : Nat) (h : n < 256) : to_bytes_be 1 n = [n] := by
  simp [to_bytes_be, Nat.mod_eq_of_lt h]

theorem commit_ret_of_upload_ok (inp : CommitInputs) (st : SnapshotterStatus) (cid : String)
    (h : uploadStep inp = Except.ok cid) : (_commit_payload inp st).ret = Except.ok cid := by
  cases hs : _send_submission_to_collector inp.setts inp.domain inp.identity_key inp.blockFetch
      cid inp.epochId inp.project_id none none inp.send inp.cancel with
  | error e => simp [_commit_payload, h, hs]
  | ok u => simp [_commit_payload, h, hs]

/-! ## Claim theorems -/

/-- C4: a primary-upload backend that always fails with a retryable error is
attempted exactly 5 times before the failure is reported, while the excluded
`IPFSAsyncClientError` fails on the first attempt with no retry; the archival
upload runs under the same attempt bound and randomized exponential backoff
shape (multiplier 1s, cap 10s), with `httpx.HTTPStatusError` as its own
excluded class. -/
theorem C4_upload_retry_bounds :
    (∀ (f : Nat → Except PyExc String) (e : PyExc), (∀ i, f i = Except.error e) →
      isIPFSAsyncClientError e = false →
      retryRun ipfsUploadRetryPolicy f = (Except.error e, 5)) ∧
    (∀ (f : Nat → Except PyExc String) (e : PyExc), f 0 = Except.error e →
      isIPFSAsyncClientError e = true →
      retryRun ipfsUploadRetryPolicy f = (Except.error e, 1)) ∧
    (∀ (g : Nat → Except PyExc Unit) (e : PyExc), (∀ i, g i = Except.error e) →
      isHTTPStatusError e = false →
      retryRun web3StorageRetryPolicy g = (Except.error e, 5)) ∧
    (∀ (g : Nat → Except PyExc Unit) (e : PyExc), g 0 = Except.error e →
      isHTTPStatusError e = true →
      retryRun web3StorageRetryPolicy g = (Except.error e, 1)) ∧
    ipfsUploadRetryPolicy.waitMultiplier = 1 ∧ ipfsUploadRetryPolicy.waitMax = 10 ∧
    ipfsUploadRetryPolicy.maxAttempts = 5 ∧
    web3StorageRetryPolicy.waitMultiplier = 1 ∧ web3StorageRetryPolicy.waitMax = 10 ∧
    web3StorageRetryPolicy.maxAttempts = 5 := by
  refine ⟨?_, ?_, ?_, ?_, rfl, rfl, rfl, rfl, rfl, rfl⟩
  · intro f e hf he
    have := retryRun_const_error ipfsUploadRetryPolicy f e hf
      (by simp [ipfsUploadRetryPolicy, he])
    simpa [ipfsUploadRetryPolicy] using this
  · intro f e hf he
    exact retryRun_excluded_error ipfsUploadRetryPolicy f e hf
      (by simp [ipfsUploadRetryPolicy, he])
  · intro g e hg he
    have := retryRun_const_error web3StorageRetryPolicy g e hg
      (by simp [web3StorageRetryPolicy, he])
    simpa [web3StorageRetryPolicy] using this
  · intro g e hg he
    exact retryRun_excluded_error web3StorageRetryPolicy g e hg
      (by simp [web3StorageRetryPolicy, he])

/-- C4 witness: the bounds evaluated at concrete always-failing backends. -/
theorem C4_upload_retry_bounds_witness :
    retryRun ipfsUploadRetryPolicy (fun _ => (Except.error (PyExc.OtherError "net") :
      Except PyExc String)) = (Except.error (PyExc.OtherError "net"), 5) ∧
    retryRun ipfsUploadRetryPolicy (fun _ => (Except.error (PyExc.IPFSAsyncClientError "bad") :
      Except PyExc String)) = (Except.error (PyExc.IPFSAsyncClientError "bad"), 1) ∧
    retryRun web3StorageRetryPolicy (fun _ => (Except.error (PyExc.OtherError "net") :
      Except PyExc Unit)) = (Except.error (PyExc.OtherError "net"), 5) ∧
    retryRun web3StorageRetryPolicy (fun _ => (Except.error (PyExc.HTTPStatusError "400") :
      Except PyExc Unit)) = (Except.error (PyExc.HTTPStatusError "400"), 1) :=
  ⟨C4_upload_retry_bounds.1 _ _ (fun _ => rfl) rfl,
   C4_upload_retry_bounds.2.1 _ _ rfl rfl,
   C4_upload_retry_bounds.2.2.1 _ _ (fun _ => rfl) rfl,
   C4_upload_retry_bounds.2.2.2.1 _ _ rfl rfl⟩

/-- C5: payloads with the same key-value fields (any insertion order, keys
unique as in a Python dict) canonicalize to byte-identical output; with no
storage backend configured the commits of both payloads return the identical
local content id, and the local hashing fallback is idempotent with zero
network calls. -/
theorem C5_canonical_cid (d₁ d₂ : List (String × J)) (hp : d₁.Perm d₂)
    (hnd : (d₁.map Prod.fst).Nodup) :
    jsonDumps d₁ = jsonDumps d₂ ∧
    (∀ (i₁ i₂ : CommitInputs) (st₁ st₂ : SnapshotterStatus),
      i₁.ipfsConfigured = false → i₂.ipfsConfigured = false →
      i₁.payload = d₁ → i₂.payload = d₂ →
      (_commit_payload i₁ st₁).ret = Except.ok (cid_sha256_hash (snapshotBytes d₁)) ∧
      (_commit_payload i₂ st₂).ret = Except.ok (cid_sha256_hash (snapshotBytes d₁))) ∧
    (∀ b : List Nat, uploadLocalFallback b = (cid_sha256_hash b, 0) ∧
      (uploadLocalFallback b).2 = 0) := by
  refine ⟨jsonDumps_eq_of_perm d₁ d₂ hp hnd, ?_, fun b => ⟨rfl, rfl⟩⟩
  intro i₁ i₂ st₁ st₂ hc₁ hc₂ hp₁ hp₂
  constructor
  · apply commit_ret_of_upload_ok
    unfold uploadStep
    rw [hc₁, hp₁, if_neg (by simp)]
  · apply commit_ret_of_upload_ok
    unfold uploadStep
    rw [hc₂, hp₂, if_neg (by simp), ← snapshotBytes_eq_of_perm d₁ d₂ hp hnd]

/-- C5 witness: two concrete two-field payloads differing only in insertion
order canonicalize identically. -/
theorem C5_canonical_cid_witness :
    ([("a", J.num 1), ("b", J.num 2)] : List (String × J)).Perm
      [("b", J.num 2), ("a", J.num 1)] ∧
    jsonDumps [("a", J.num 1), ("b", J.num 2)] = jsonDumps [("b", J.num 2), ("a", J.num 1)] := by
  have hperm : ([("a", J.num 1), ("b", J.num 2)] : List (String × J)).Perm
      [("b", J.num 2), ("a", J.num 1)] := List.Perm.swap _ _ _
  refine ⟨hperm, (C5_canonical_cid _ _ hperm ?_).1⟩
  simp

/-- C6: whenever `generate_signature` succeeds, the request deadline equals
the fetched anchor block number plus the configured deadline buffer and, the
spec requiring the deadline to be strictly in the future (a positive buffer),
is strictly greater than that block number. -/
theorem C6_deadline (setts : SigSettings) (domain : Eip712Domain) (identity_key : List Nat)
    (blk : AnchorBlock) (snapshot_cid : String) (epoch_id : Nat) (project_id : String)
    (slot_id : Option Nat) (private_key : Option String)
    (out : EIPRequest × List Nat × String)
    (hok : generate_signature setts domain identity_key (Except.ok blk) snapshot_cid
      epoch_id project_id slot_id private_key = Except.ok out)
    (hbuf : 0 < setts.deadline_buffer) :
    out.1.deadline = blk.number + setts.deadline_buffer ∧ blk.number < out.1.deadline := by
  have hdl : out.1.deadline = blk.number + setts.deadline_buffer := by
    cases private_key with
    | none =>
      simp only [generate_signature, Except.ok.injEq] at hok
      rw [← hok]
    | some pk =>
      by_cases hpk : pk = ""
      · subst hpk
        simp only [generate_signature, eq_self_iff_true, if_true, Except.ok.injEq] at hok
        rw [← hok]
      · simp only [generate_signature, if_neg hpk] at hok
        cases hfh : PrivateKey_from_hex (strip0x pk) with
        | none => rw [hfh] at hok; exact absurd hok (by simp)
        | some k =>
          rw [hfh] at hok
          simp only [Except.ok.injEq] at hok
          rw [← hok]
  exact ⟨hdl, by omega⟩

/-- C6 witness: a concrete signing call whose deadline is the anchor block
number 100 plus the buffer 3. -/
theorem C6_deadline_witness :
    ∃ out, generate_signature ⟨"ab", 1, 3⟩ ⟨"PowerloomProtocolContract", "0.1", 1, "vc"⟩ []
        (Except.ok ⟨100, "bh"⟩) "cid" 7 "proj" none none = Except.ok out ∧
      out.1.deadline = 100 + 3 ∧ 100 < out.1.deadline := by
  cases hgen : generate_signature ⟨"ab", 1, 3⟩ ⟨"PowerloomProtocolContract", "0.1", 1, "vc"⟩ []
      (Except.ok ⟨100, "bh"⟩) "cid" 7 "proj" none none with
  | error e => exact absurd hgen (by simp [generate_signature])
  | ok out =>
    exact ⟨out, rfl, (C6_deadline _ _ _ _ _ _ _ _ _ _ hgen (by decide)).1,
      (C6_deadline _ _ _ _ _ _ _ _ _ _ hgen (by decide)).2⟩

/-- C7: the serialized signature is 65 bytes — the 32-byte big-endian `r`,
the 32-byte big-endian `s`, then the recovery byte `v = raw + 27`, which lies
in 27..28 for a raw recovery id in 0..1. -/
theorem C7_signature_serialization (signature : List Nat)
    (hlen : signature.length = 65) (hlt : ∀ x ∈ signature, x < 256)
    (hrec : signature.getD 64 0 = 0 ∨ signature.getD 64 0 = 1) :
    serializeSignature signature
      = signature.take 32 ++ (signature.drop 32).take 32 ++ [signature.getD 64 0 + 27] ∧
    (serializeSignature signature).length = 65 ∧
    (signature.getD 64 0 + 27 = 27 ∨ signature.getD 64 0 + 27 = 28) := by
  have htake_len : (signature.take 32).length = 32 := by
    rw [List.length_take]; omega
  have hmid_len : ((signature.drop 32).take 32).length = 32 := by
    rw [List.length_take, List.length_drop]; omega
  have htake_lt : ∀ x ∈ signature.take 32, x < 256 :=
    fun x hx => hlt x (List.take_subset _ _ hx)
  have hmid_lt : ∀ x ∈ (signature.drop 32).take 32, x < 256 :=
    fun x hx => hlt x (List.drop_subset _ _ (List.take_subset _ _ hx))
  have h1 : to_bytes_be 32 (big_endian_to_int (signature.take 32)) = signature.take 32 := by
    have h := to_bytes_be_big_endian_to_int (signature.take 32) htake_lt
    rwa [htake_len] at h
  have h2 : to_bytes_be 32 (big_endian_to_int ((signature.drop 32).take 32))
      = (signature.drop 32).take 32 := by
    have h := to_bytes_be_big_endian_to_int ((signature.drop 32).take 32) hmid_lt
    rwa [hmid_len] at h
  have hv : signature.getD 64 0 + 27 < 256 := by rcases hrec with h | h <;> omega
  have h3 : to_bytes_be 1 (signature.getD 64 0 + 27) = [signature.getD 64 0 + 27] :=
    to_bytes_be_one _ hv
  refine ⟨?_, ?_, ?_⟩
  · simp only [serializeSignature, h1, h2, h3]
  · simp [serializeSignature, to_bytes_be_length]
  · rcases hrec with h | h <;> omega

/-- C7 witness: the layout evaluated at a concrete 65-byte raw signature with
recovery id 1. -/
theorem C7_signature_serialization_witness :
    serializeSignature (List.replicate 64 0 ++ [1])
      = (List.replicate 64 0 ++ [1] : List Nat).take 32 ++
        ((List.replicate 64 0 ++ [1] : List Nat).drop 32).take 32 ++
        [(List.replicate 64 0 ++ [1] : List Nat).getD 64 0 + 27] :=
  (C7_signature_serialization (List.replicate 64 0 ++ [1]) (by decide) (by decide)
    (by decide)).1

theorem commit_core_spec (inp : CommitInputs) (st : SnapshotterStatus) :
    ((_commit_payload inp st).ret, (_commit_payload inp st).status,
      (_commit_payload inp st).issuesSent, (_commit_payload inp st).submissionAttempted)
      = commitCore inp st := by
  cases hu : uploadStep inp with
  | error e => simp [_commit_payload, commitCore, hu]
  | ok cid =>
    cases hs : _send_submission_to_collector inp.setts inp.domain inp.identity_key
        inp.blockFetch cid inp.epochId inp.project_id none none inp.send inp.cancel with
    | error e => simp [_commit_payload, commitCore, hu, hs]
    | ok u => simp [_commit_payload, commitCore, hu, hs]

theorem collector_ok_of_block_ok (setts : SigSettings) (domain : Eip712Domain)
    (ik : List Nat) (blk : AnchorBlock) (cid : String) (eid : Nat) (pid : String)
    (send : SendOutcome) (cancel : CancelOutcome) :
    _send_submission_to_collector setts domain ik (Except.ok blk) cid eid pid none none
      send cancel = Except.ok () := by
  unfold _send_submission_to_collector
  simp only [generate_signature]
  cases (_send_msg_with_closure send cancel).raised with
  | none => rfl
  | some e => cases e <;> rfl

/-- C8: the detached archival upload runs on the already-canonicalized bytes,
and neither the archival configuration (token, backend behavior) nor the
archival flag changes the commit's return value, counters or failure issues;
with no api token configured the archival task is a no-network no-op. -/
theorem C8_archival_frame (inp : CommitInputs) (st : SnapshotterStatus)
    (tok₁ tok₂ : String) (post₁ post₂ : List Nat → Nat → Except PyExc Unit) :
    ((_commit_payload { inp with web3_api_token := tok₁, web3Post := post₁ } st).ret
      = (_commit_payload { inp with web3_api_token := tok₂, web3Post := post₂ } st).ret) ∧
    ((_commit_payload { inp with web3_api_token := tok₁, web3Post := post₁ } st).status
      = (_commit_payload { inp with web3_api_token := tok₂, web3Post := post₂ } st).status) ∧
    ((_commit_payload { inp with web3_api_token := tok₁, web3Post := post₁ } st).issuesSent
      = (_commit_payload { inp with web3_api_token := tok₂, web3Post := post₂ } st).issuesSent) ∧
    ((_commit_payload { inp with storage_flag := true } st).ret
      = (_commit_payload { inp with storage_flag := false } st).ret) ∧
    ((_commit_payload { inp with storage_flag := true } st).status
      = (_commit_payload { inp with storage_flag := false } st).status) ∧
    ((_commit_payload { inp with storage_flag := true } st).issuesSent
      = (_commit_payload { inp with storage_flag := false } st).issuesSent) ∧
    ((_commit_payload { inp with storage_flag := true } st).archivalTask
      = some (_upload_web3_storage (snapshotBytes inp.payload) inp.web3_api_token
          inp.web3Post)) ∧
    (∀ (b : List Nat) (post : List Nat → Nat → Except PyExc Unit),
      _upload_web3_storage b "" post = (Except.ok (), 1)) := by
  have h₁ := commit_core_spec { inp with web3_api_token := tok₁, web3Post := post₁ } st
  have h₂ := commit_core_spec { inp with web3_api_token := tok₂, web3Post := post₂ } st
  have h₁₂ : commitCore { inp with web3_api_token := tok₁, web3Post := post₁ } st
      = commitCore { inp with web3_api_token := tok₂, web3Post := post₂ } st := rfl
  have ht := commit_core_spec { inp with storage_flag := true } st
  have hf := commit_core_spec { inp with storage_flag := false } st
  have htf : commitCore { inp with storage_flag := true } st
      = commitCore { inp with storage_flag := false } st := rfl
  have ha := h₁.trans (h₁₂.trans h₂.symm)
  have hb := ht.trans (htf.trans hf.symm)
  refine ⟨congrArg (fun t => t.1) ha, congrArg (fun t => t.2.1) ha,
    congrArg (fun t => t.2.2.1) ha, congrArg (fun t => t.1) hb,
    congrArg (fun t => t.2.1) hb, congrArg (fun t => t.2.2.1) hb, ?_, fun b post => rfl⟩
  cases hu : uploadStep { inp with storage_flag := true } with
  | error e => simp [_commit_payload, hu]
  | ok cid =>
    cases hs : _send_submission_to_collector inp.setts inp.domain inp.identity_key
        inp.blockFetch cid inp.epochId inp.project_id none none inp.send inp.cancel with
    | error e => simp [_commit_payload, hu, hs]
    | ok u => simp [_commit_payload, hu, hs]

/-- C9: a transport failure on the submission stream triggers a cancel attempt
bounded by a 10-second timeout whose own outcome — success, timeout, prior
cancellation or failure — is swallowed, and nothing escapes the closure; a
caller cancellation during the stream wait is likewise swallowed and the
commit reports nothing to the failure reporter (no issue, no missed count). -/
theorem C9_transport_cancel_swallowed (m : String) (cancel : CancelOutcome)
    (inp : CommitInputs) (st : SnapshotterStatus) (cid : String) (blk : AnchorBlock)
    (hup : uploadStep inp = Except.ok cid) (hblk : inp.blockFetch = Except.ok blk)
    (_hsend : inp.send = SendOutcome.cancelled) :
    ((_send_msg_with_closure SendOutcome.connectionReset cancel).cancelAttempted = true ∧
     (_send_msg_with_closure SendOutcome.connectionReset cancel).cancelTimeoutSeconds = 10 ∧
     (_send_msg_with_closure SendOutcome.connectionReset cancel).raised = none) ∧
    ((_send_msg_with_closure (SendOutcome.grpcError m) cancel).cancelAttempted = true ∧
     (_send_msg_with_closure (SendOutcome.grpcError m) cancel).cancelTimeoutSeconds = 10 ∧
     (_send_msg_with_closure (SendOutcome.grpcError m) cancel).raised = none) ∧
    cancelBlock cancel = none ∧
    (_send_msg_with_closure SendOutcome.cancelled cancel).raised = none ∧
    ((_commit_payload inp st).issuesSent = [] ∧
     (_commit_payload inp st).status.totalMissedSubmissions = st.totalMissedSubmissions) := by
  have hcb : cancelBlock cancel = none := by cases cancel <;> rfl
  have hcol := collector_ok_of_block_ok inp.setts inp.domain inp.identity_key blk cid
    inp.epochId inp.project_id inp.send inp.cancel
  refine ⟨⟨rfl, rfl, hcb⟩, ⟨rfl, rfl, hcb⟩, hcb, rfl, ?_, ?_⟩
  · rw [← hblk] at hcol
    simp [_commit_payload, hup, hcol]
  · rw [← hblk] at hcol
    simp [_commit_payload, hup, hcol]

/-- C9 witness: the closure facts and the commit-level accounting evaluated at
a concrete cancelled submission. -/
theorem C9_transport_cancel_swallowed_witness :
    (_send_msg_with_closure SendOutcome.connectionReset CancelOutcome.timedOut).cancelAttempted
      = true ∧
    (_send_msg_with_closure SendOutcome.connectionReset
      CancelOutcome.timedOut).cancelTimeoutSeconds = 10 ∧
    (_commit_payload
      ⟨false, fun _ => Except.ok "", [("a", J.num 1)], "proj", 7, "inst", ⟨"ab", 1, 3⟩,
        ⟨"PowerloomProtocolContract", "0.1", 1, "vc"⟩, [1], Except.ok ⟨100, "bh"⟩,
        SendOutcome.cancelled, CancelOutcome.timedOut, false, "", fun _ _ => Except.ok ()⟩
      ⟨0, 0, 0⟩).issuesSent = [] := by
  have h := C9_transport_cancel_swallowed "x" CancelOutcome.timedOut
    ⟨false, fun _ => Except.ok "", [("a", J.num 1)], "proj", 7, "inst", ⟨"ab", 1, 3⟩,
      ⟨"PowerloomProtocolContract", "0.1", 1, "vc"⟩, [1], Except.ok ⟨100, "bh"⟩,
      SendOutcome.cancelled, CancelOutcome.timedOut, false, "", fun _ _ => Except.ok ()⟩
    ⟨0, 0, 0⟩ _ ⟨100, "bh"⟩ rfl rfl rfl
  exact ⟨h.1.1, h.1.2.1, h.2.2.2.2.1⟩

/-- C10: in one commit invocation at most one failure issue is sent and the
counters are updated by exactly one of three mutually exclusive outcomes:
upload failure (both miss counters +1, submission never attempted), submission
failure (both miss counters +1 after an attempt), or success
(`totalSuccessfulSubmissions` +1 and `consecutiveMissedSubmissions` reset). -/
theorem C10_exactly_one_outcome (inp : CommitInputs) (st : SnapshotterStatus) :
    (_commit_payload inp st).issuesSent.length ≤ 1 ∧
    (((_commit_payload inp st).submissionAttempted = false ∧
      (_commit_payload inp st).status =
        { st with totalMissedSubmissions := st.totalMissedSubmissions + 1
                  consecutiveMissedSubmissions := st.consecutiveMissedSubmissions + 1 } ∧
      (_commit_payload inp st).issuesSent = [missedIssue inp]) ∨
     ((_commit_payload inp st).submissionAttempted = true ∧
      (_commit_payload inp st).status =
        { st with totalMissedSubmissions := st.totalMissedSubmissions + 1
                  consecutiveMissedSubmissions := st.consecutiveMissedSubmissions + 1 } ∧
      (_commit_payload inp st).issuesSent = [missedIssue inp]) ∨
     ((_commit_payload inp st).submissionAttempted = true ∧
      (_commit_payload inp st).status =
        { st with totalSuccessfulSubmissions := st.totalSuccessfulSubmissions + 1
                  consecutiveMissedSubmissions := 0 } ∧
      (_commit_payload inp st).issuesSent = [])) ∧
    ¬(((_commit_payload inp st).submissionAttempted = false ∧
       (_commit_payload inp st).issuesSent = [missedIssue inp]) ∧
      ((_commit_payload inp st).submissionAttempted = true ∧
       (_commit_payload inp st).issuesSent = [missedIssue inp])) ∧
    ¬(((_commit_payload inp st).status =
        { st with totalMissedSubmissions := st.totalMissedSubmissions + 1
                  consecutiveMissedSubmissions := st.consecutiveMissedSubmissions + 1 }) ∧
      ((_commit_payload inp st).status =
        { st with totalSuccessfulSubmissions := st.totalSuccessfulSubmissions + 1
                  consecutiveMissedSubmissions := 0 })) := by
  refine ⟨?_, ?_, ?_, ?_⟩
  · cases hu : uploadStep inp with
    | error e => simp [_commit_payload, hu]
    | ok cid =>
      cases hs : _send_submission_to_collector inp.setts inp.domain inp.identity_key
          inp.blockFetch cid inp.epochId inp.project_id none none inp.send inp.cancel with
      | error e => simp [_commit_payload, hu, hs]
      | ok u => simp [_commit_payload, hu, hs]
  · cases hu : uploadStep inp with
    | error e => exact Or.inl (by simp [_commit_payload, hu])
    | ok cid =>
      cases hs : _send_submission_to_collector inp.setts inp.domain inp.identity_key
          inp.blockFetch cid inp.epochId inp.project_id none none inp.send inp.cancel with
      | error e => exact Or.inr (Or.inl (by simp [_commit_payload, hu, hs]))
      | ok u => exact Or.inr (Or.inr (by simp [_commit_payload, hu, hs]))
  · rintro ⟨⟨hf, -⟩, ⟨ht, -⟩⟩
    rw [hf] at ht
    exact Bool.noConfusion ht
  · rintro ⟨hm, hs⟩
    rw [hm] at hs
    have := congrArg SnapshotterStatus.totalMissedSubmissions hs
    simp only at this
    omega

theorem collector_error_of_block_error (setts : SigSettings) (domain : Eip712Domain)
    (ik : List Nat) (e : PyExc) (cid : String) (eid : Nat) (pid : String)
    (send : SendOutcome) (cancel : CancelOutcome) :
    _send_submission_to_collector setts domain ik (Except.error e) cid eid pid none none
      send cancel = Except.error e := rfl

theorem commit_block_error_step (inp : CommitInputs) (st : SnapshotterStatus)
    (cid : String) (e : PyExc)
    (hup : uploadStep inp = Except.ok cid) (hblk : inp.blockFetch = Except.error e) :
    (_commit_payload inp st).status =
      { st with totalMissedSubmissions := st.totalMissedSubmissions + 1
                consecutiveMissedSubmissions := st.consecutiveMissedSubmissions + 1 } ∧
    (_commit_payload inp st).issuesSent = [missedIssue inp] := by
  have hcol : _send_submission_to_collector inp.setts inp.domain inp.identity_key
      inp.blockFetch cid inp.epochId inp.project_id none none inp.send inp.cancel
      = Except.error e := by
    rw [hblk]
    exact collector_error_of_block_error _ _ _ _ _ _ _ _ _
  constructor <;> simp [_commit_payload, hup, hcol]

theorem commit_block_ok_step (inp : CommitInputs) (st : SnapshotterStatus)
    (cid : String) (blk : AnchorBlock)
    (hup : uploadStep inp = Except.ok cid) (hblk : inp.blockFetch = Except.ok blk) :
    (_commit_payload inp st).status =
      { st with totalSuccessfulSubmissions := st.totalSuccessfulSubmissions + 1
                consecutiveMissedSubmissions := 0 } ∧
    (_commit_payload inp st).issuesSent = [] := by
  have hcol : _send_submission_to_collector inp.setts inp.domain inp.identity_key
      inp.blockFetch cid inp.epochId inp.project_id none none inp.send inp.cancel
      = Except.ok () := by
    rw [hblk]
    exact collector_ok_of_block_ok _ _ _ _ _ _ _ _ _
  constructor <;> simp [_commit_payload, hup, hcol]

/-- C1 (counterexample): a commit whose collector delivery fails with a gRPC
transport error after a successful upload is recorded as a SUCCESS — no issue
is emitted, both miss counters stay 0 and `totalSuccessfulSubmissions` becomes
1 — refuting the claim that such a commit records a failure (both miss
counters +1 and one MISSED_SNAPSHOT issue). -/
theorem C1_counterexample :
    (_commit_payload
      ⟨false, fun _ => Except.ok "", [("a", J.num 1)], "proj", 7, "inst", ⟨"ab", 1, 3⟩,
        ⟨"PowerloomProtocolContract", "0.1", 1, "vc"⟩, [1], Except.ok ⟨100, "bh"⟩,
        SendOutcome.grpcError "stream reset", CancelOutcome.ok, false, "",
        fun _ _ => Except.ok ()⟩ ⟨0, 0, 0⟩).status = ⟨1, 0, 0⟩ ∧
    (_commit_payload
      ⟨false, fun _ => Except.ok "", [("a", J.num 1)], "proj", 7, "inst", ⟨"ab", 1, 3⟩,
        ⟨"PowerloomProtocolContract", "0.1", 1, "vc"⟩, [1], Except.ok ⟨100, "bh"⟩,
        SendOutcome.grpcError "stream reset", CancelOutcome.ok, false, "",
        fun _ _ => Except.ok ()⟩ ⟨0, 0, 0⟩).issuesSent = [] ∧
    ¬ ((_commit_payload
      ⟨false, fun _ => Except.ok "", [("a", J.num 1)], "proj", 7, "inst", ⟨"ab", 1, 3⟩,
        ⟨"PowerloomProtocolContract", "0.1", 1, "vc"⟩, [1], Except.ok ⟨100, "bh"⟩,
        SendOutcome.grpcError "stream reset", CancelOutcome.ok, false, "",
        fun _ _ => Except.ok ()⟩ ⟨0, 0, 0⟩).status.totalMissedSubmissions = 0 + 1 ∧
      (_commit_payload
      ⟨false, fun _ => Except.ok "", [("a", J.num 1)], "proj", 7, "inst", ⟨"ab", 1, 3⟩,
        ⟨"PowerloomProtocolContract", "0.1", 1, "vc"⟩, [1], Except.ok ⟨100, "bh"⟩,
        SendOutcome.grpcError "stream reset", CancelOutcome.ok, false, "",
        fun _ _ => Except.ok ()⟩ ⟨0, 0, 0⟩).issuesSent.length = 1) := by
  refine ⟨rfl, rfl, ?_⟩
  rintro ⟨h, -⟩
  have h0 : (_commit_payload
      ⟨false, fun _ => Except.ok "", [("a", J.num 1)], "proj", 7, "inst", ⟨"ab", 1, 3⟩,
        ⟨"PowerloomProtocolContract", "0.1", 1, "vc"⟩, [1], Except.ok ⟨100, "bh"⟩,
        SendOutcome.grpcError "stream reset", CancelOutcome.ok, false, "",
        fun _ _ => Except.ok ()⟩ ⟨0, 0, 0⟩).status.totalMissedSubmissions = 0 := rfl
  omega

/-- C1 (amended): the failure reporter records a failure (both miss counters
+1 and one MISSED_SNAPSHOT issue) exactly for commits whose submission step
raises into `_commit_payload` — in this code a failure of the anchor-block
fetch inside `generate_signature` — while delivery errors on the collector
stream are swallowed inside `_send_submission_to_collector` and the commit is
recorded as a success; a non-raising submission step increments
`totalSuccessfulSubmissions` and resets the consecutive counter; hence after
N raising commits followed by one non-raising commit run sequentially,
`consecutiveMissedSubmissions = 0`, `totalMissedSubmissions` has grown by N
and `totalSuccessfulSubmissions` by 1. -/
theorem C1_amended_failure_accounting :
    (∀ (inp : CommitInputs) (st : SnapshotterStatus) (cid : String) (e : PyExc),
      uploadStep inp = Except.ok cid → inp.blockFetch = Except.error e →
      (_commit_payload inp st).status =
        { st with totalMissedSubmissions := st.totalMissedSubmissions + 1
                  consecutiveMissedSubmissions := st.consecutiveMissedSubmissions + 1 } ∧
      (_commit_payload inp st).issuesSent = [missedIssue inp] ∧
      (missedIssue inp).issueType = "MISSED_SNAPSHOT") ∧
    (∀ (inp : CommitInputs) (st : SnapshotterStatus) (cid : String) (blk : AnchorBlock),
      uploadStep inp = Except.ok cid → inp.blockFetch = Except.ok blk →
      (_commit_payload inp st).status =
        { st with totalSuccessfulSubmissions := st.totalSuccessfulSubmissions + 1
                  consecutiveMissedSubmissions := 0 } ∧
      (_commit_payload inp st).issuesSent = []) ∧
    (∀ (fails : List CommitInputs) (succ : CommitInputs) (st : SnapshotterStatus),
      (∀ i ∈ fails, (∃ cid, uploadStep i = Except.ok cid) ∧
        ∃ e, i.blockFetch = Except.error e) →
      (∃ cid, uploadStep succ = Except.ok cid) →
      (∃ blk, succ.blockFetch = Except.ok blk) →
      commitRun (fails ++ [succ]) st =
        ⟨st.totalSuccessfulSubmissions + 1, st.totalMissedSubmissions + fails.length, 0⟩) := by
  refine ⟨?_, ?_, ?_⟩
  · intro inp st cid e hup hblk
    exact ⟨(commit_block_error_step inp st cid e hup hblk).1,
      (commit_block_error_step inp st cid e hup hblk).2, rfl⟩
  · intro inp st cid blk hup hblk
    exact commit_block_ok_step inp st cid blk hup hblk
  · intro fails
    induction fails with
    | nil =>
      intro succ st hfails hupload hblock
      obtain ⟨cid, hup⟩ := hupload
      obtain ⟨blk, hblk⟩ := hblock
      have hstep := (commit_block_ok_step succ st cid blk hup hblk).1
      show (_commit_payload succ st).status = _
      rw [hstep]
      simp
    | cons i rest ih =>
      intro succ st hfails hupload hblock
      have hi := hfails i (List.mem_cons_self i rest)
      obtain ⟨⟨cid, hup⟩, ⟨e, hblk⟩⟩ := hi
      have hstep := (commit_block_error_step i st cid e hup hblk).1
      have hrest : ∀ j ∈ rest, (∃ cid, uploadStep j = Except.ok cid) ∧
          ∃ e, j.blockFetch = Except.error e :=
        fun j hj => hfails j (List.mem_cons_of_mem i hj)
      show commitRun (rest ++ [succ]) ((_commit_payload i st).status) = _
      rw [hstep, ih succ _ hrest hupload hblock]
      simp only [SnapshotterStatus.mk.injEq, List.length_cons]
      refine ⟨trivial, ?_, trivial⟩
      show st.totalMissedSubmissions + 1 + rest.length
        = st.totalMissedSubmissions + (rest.length + 1)
      omega

/-- C1 (amended) witness: two sequential commits whose anchor-block fetch
raises followed by one whose pipeline succeeds leave the counters at
`totalSuccessfulSubmissions = 1`, `totalMissedSubmissions = 2`,
`consecutiveMissedSubmissions = 0`. -/
theorem C1_amended_failure_accounting_witness :
    commitRun
      ([⟨false, fun _ => Except.ok "", [("a", J.num 1)], "proj", 7, "inst", ⟨"ab", 1, 3⟩,
          ⟨"PowerloomProtocolContract", "0.1", 1, "vc"⟩, [1], Except.error PyExc.TimeoutError,
          SendOutcome.delivered, CancelOutcome.ok, false, "", fun _ _ => Except.ok ()⟩,
        ⟨false, fun _ => Except.ok "", [("a", J.num 1)], "proj", 8, "inst", ⟨"ab", 1, 3⟩,
          ⟨"PowerloomProtocolContract", "0.1", 1, "vc"⟩, [1],
          Except.error (PyExc.RPCError "down"),
          SendOutcome.delivered, CancelOutcome.ok, false, "", fun _ _ => Except.ok ()⟩] ++
       [⟨false, fun _ => Except.ok "", [("a", J.num 1)], "proj", 9, "inst", ⟨"ab", 1, 3⟩,
          ⟨"PowerloomProtocolContract", "0.1", 1, "vc"⟩, [1], Except.ok ⟨100, "bh"⟩,
          SendOutcome.delivered, CancelOutcome.ok, false, "", fun _ _ => Except.ok ()⟩])
      ⟨0, 0, 0⟩ = ⟨1, 2, 0⟩ := by
  have h := C1_amended_failure_accounting.2.2
    [⟨false, fun _ => Except.ok "", [("a", J.num 1)], "proj", 7, "inst", ⟨"ab", 1, 3⟩,
        ⟨"PowerloomProtocolContract", "0.1", 1, "vc"⟩, [1], Except.error PyExc.TimeoutError,
        SendOutcome.delivered, CancelOutcome.ok, false, "", fun _ _ => Except.ok ()⟩,
     ⟨false, fun _ => Except.ok "", [("a", J.num 1)], "proj", 8, "inst", ⟨"ab", 1, 3⟩,
        ⟨"PowerloomProtocolContract", "0.1", 1, "vc"⟩, [1],
        Except.error (PyExc.RPCError "down"),
        SendOutcome.delivered, CancelOutcome.ok, false, "", fun _ _ => Except.ok ()⟩]
    ⟨false, fun _ => Except.ok "", [("a", J.num 1)], "proj", 9, "inst", ⟨"ab", 1, 3⟩,
        ⟨"PowerloomProtocolContract", "0.1", 1, "vc"⟩, [1], Except.ok ⟨100, "bh"⟩,
        SendOutcome.delivered, CancelOutcome.ok, false, "", fun _ _ => Except.ok ()⟩
    ⟨0, 0, 0⟩ ?_ ⟨_, rfl⟩ ⟨_, rfl⟩
  · exact h
  · intro i hi
    simp only [List.mem_cons, List.mem_singleton] at hi
    rcases hi with rfl | rfl | hi
    · exact ⟨⟨_, rfl⟩, ⟨_, rfl⟩⟩
    · exact ⟨⟨_, rfl⟩, ⟨_, rfl⟩⟩
    · exact absurd hi (List.not_mem_nil i)

/-- C2 (code bug): with the IPFS backend configured and an upload that fails
with the permanent validation-error class, submission is never attempted,
exactly one failure issue is sent and `totalMissedSubmissions` increments by
1 — but the commit then raises `UnboundLocalError` at `return snapshot_cid`
(line 402, the variable was never assigned) instead of returning a content id
or an upload-failure indicator. -/
theorem C2_upload_failure_unbound_local :
    (_commit_payload
      ⟨true, fun _ => Except.error (PyExc.IPFSAsyncClientError "invalid payload"),
        [("a", J.num 1)], "proj", 7, "inst", ⟨"ab", 1, 3⟩,
        ⟨"PowerloomProtocolContract", "0.1", 1, "vc"⟩, [1], Except.ok ⟨100, "bh"⟩,
        SendOutcome.delivered, CancelOutcome.ok, false, "",
        fun _ _ => Except.ok ()⟩ ⟨5, 6, 7⟩).submissionAttempted = false ∧
    (_commit_payload
      ⟨true, fun _ => Except.error (PyExc.IPFSAsyncClientError "invalid payload"),
        [("a", J.num 1)], "proj", 7, "inst", ⟨"ab", 1, 3⟩,
        ⟨"PowerloomProtocolContract", "0.1", 1, "vc"⟩, [1], Except.ok ⟨100, "bh"⟩,
        SendOutcome.delivered, CancelOutcome.ok, false, "",
        fun _ _ => Except.ok ()⟩ ⟨5, 6, 7⟩).issuesSent.length = 1 ∧
    (_commit_payload
      ⟨true, fun _ => Except.error (PyExc.IPFSAsyncClientError "invalid payload"),
        [("a", J.num 1)], "proj", 7, "inst", ⟨"ab", 1, 3⟩,
        ⟨"PowerloomProtocolContract", "0.1", 1, "vc"⟩, [1], Except.ok ⟨100, "bh"⟩,
        SendOutcome.delivered, CancelOutcome.ok, false, "",
        fun _ _ => Except.ok ()⟩ ⟨5, 6, 7⟩).status = ⟨5, 7, 8⟩ ∧
    (_commit_payload
      ⟨true, fun _ => Except.error (PyExc.IPFSAsyncClientError "invalid payload"),
        [("a", J.num 1)], "proj", 7, "inst", ⟨"ab", 1, 3⟩,
        ⟨"PowerloomProtocolContract", "0.1", 1, "vc"⟩, [1], Except.ok ⟨100, "bh"⟩,
        SendOutcome.delivered, CancelOutcome.ok, false, "",
        fun _ _ => Except.ok ()⟩ ⟨5, 6, 7⟩).ret
      = Except.error (PyExc.UnboundLocalError "snapshot_cid") :=
  ⟨rfl, rfl, rfl, rfl⟩

set_option maxRecDepth 100000 in
/-- C3 (code bug): the override-key path strips a `0x` prefix before key
parsing, so both textual forms of the same override key produce identical
successful signatures, and the override key is used instead of the identity
key (the result does not depend on the identity key); but `_init_rpc_helper`
parses the UNSTRIPPED `settings.signer_private_key`, so a `0x`-prefixed
identity key makes `PrivateKey.from_hex` raise `ValueError` during
initialization while the bare form of the same key initializes fine. -/
theorem C3_identity_key_prefix_bug :
    (initIdentityKey
      "aaaaaaaaaaaaaaaaaaaaaaaaaaaaaaaaaaaaaaaaaaaaaaaaaaaaaaaaaaaaaaaa").isSome = true ∧
    initIdentityKey
      ("0x" ++ "aaaaaaaaaaaaaaaaaaaaaaaaaaaaaaaaaaaaaaaaaaaaaaaaaaaaaaaaaaaaaaaa") = none ∧
    generate_signature ⟨"ab", 1, 3⟩ ⟨"PowerloomProtocolContract", "0.1", 1, "vc"⟩ [9]
        (Except.ok ⟨100, "bh"⟩) "cid" 7 "proj" none
        (some ("0x" ++ "aaaaaaaaaaaaaaaaaaaaaaaaaaaaaaaaaaaaaaaaaaaaaaaaaaaaaaaaaaaaaaaa"))
      = generate_signature ⟨"ab", 1, 3⟩ ⟨"PowerloomProtocolContract", "0.1", 1, "vc"⟩ [9]
        (Except.ok ⟨100, "bh"⟩) "cid" 7 "proj" none
        (some "aaaaaaaaaaaaaaaaaaaaaaaaaaaaaaaaaaaaaaaaaaaaaaaaaaaaaaaaaaaaaaaa") ∧
    generate_signature ⟨"ab", 1, 3⟩ ⟨"PowerloomProtocolContract", "0.1", 1, "vc"⟩ [9]
        (Except.ok ⟨100, "bh"⟩) "cid" 7 "proj" none
        (some "aaaaaaaaaaaaaaaaaaaaaaaaaaaaaaaaaaaaaaaaaaaaaaaaaaaaaaaaaaaaaaaa")
      = generate_signature ⟨"ab", 1, 3⟩ ⟨"PowerloomProtocolContract", "0.1", 1, "vc"⟩ [8]
        (Except.ok ⟨100, "bh"⟩) "cid" 7 "proj" none
        (some "aaaaaaaaaaaaaaaaaaaaaaaaaaaaaaaaaaaaaaaaaaaaaaaaaaaaaaaaaaaaaaaa") ∧
    (generate_signature ⟨"ab", 1, 3⟩ ⟨"PowerloomProtocolContract", "0.1", 1, "vc"⟩ [9]
        (Except.ok ⟨100, "bh"⟩) "cid" 7 "proj" none
        (some "aaaaaaaaaaaaaaaaaaaaaaaaaaaaaaaaaaaaaaaaaaaaaaaaaaaaaaaaaaaaaaaa")).isOk
      = true := by
  refine ⟨by decide, by decide, by decide, by decide, by decide⟩

end Snapshotter
